import Mathlib

set_option autoImplicit false

/-!
Shallow embedding of examples/multiclass_comparision_svm_struct.py:
the MultiSVM subprocess adapter for the external SVM-multiclass solver,
the eval_on_data sweep harness, and the plot_curves reporter.

Machine floats are idealized as rationals.  The interaction with the
operating system (temporary file names, the two external binaries, the
process clock) is made explicit: temporary names come from a counter
(mirroring the uniqueness guarantee of tempfile.mktemp), and the text
output of the learn tool, the numeric table produced by the classify
tool, and the clock readings are supplied by an oracle structure, since
they are produced outside the program.
-/

/-- Exceptions that the Python-level operations of the script can raise. -/
inductive PyErr where
  | valueError
  | indexError
  | attributeError
  | ioError
  deriving DecidableEq, Repr

/-- Values of the Python built-in float constructor applied to a string:
finite values idealized as rationals, plus the special inf and nan
results (with inf carrying its sign). -/
inductive PyFloat where
  | finite (q : Rat)
  | inf (neg : Bool)
  | nan
  deriving DecidableEq, Repr

/-- Numeric value of a digit string, most significant digit first. -/
def digitsToNat (ds : List Char) : Nat :=
  ds.foldl (fun a c => a * 10 + (c.toNat - 48)) 0

/-- Longest digit run at the front of a character list, with the rest. -/
def spanDigits : List Char → List Char × List Char
  | [] => ([], [])
  | c :: cs =>
      if c.isDigit then
        let r := spanDigits cs
        (c :: r.1, r.2)
      else ([], c :: cs)

/-- Optional leading sign; returns whether it was a minus, and the rest. -/
def parseSign : List Char → Bool × List Char
  | '-' :: cs => (true, cs)
  | '+' :: cs => (false, cs)
  | cs => (false, cs)

/-- Model of the Python str.split method with a one-character
separator, on the character list: every separator occurrence starts a
new group, and empty groups are kept. -/
def splitOnChar (sep : Char) : List Char → List (List Char)
  | [] => [[]]
  | c :: rest =>
      let r := splitOnChar sep rest
      if c = sep then [] :: r
      else
        match r with
        | [] => [[c]]
        | g :: gs => (c :: g) :: gs

/-- Python str.split with a one-character separator, the form fit uses
on the newline and on the colon. -/
def pySplit (s : String) (sep : Char) : List String :=
  (splitOnChar sep s.toList).map (fun g => ⟨g⟩)

/-- Whitespace characters that the float constructor strips around its
argument. -/
def isPySpace (c : Char) : Bool :=
  c = ' ' ∨ c = '\t' ∨ c = '\n' ∨ c = '\r' ∨ c = '\x0b' ∨ c = '\x0c'

/-- Surrounding-whitespace removal on a character list. -/
def trimChars (cs : List Char) : List Char :=
  ((cs.dropWhile isPySpace).reverse.dropWhile isPySpace).reverse

/-- Optional fractional part (a dot followed by digits); returns the
fraction digits and the rest. -/
def parseFrac : List Char → List Char × List Char
  | '.' :: cs => spanDigits cs
  | cs => ([], cs)

/-- Optional exponent part (e or E, a sign, digits); fails when an
exponent marker is present without digits. -/
def parseExpPart : List Char → Option (Int × List Char)
  | [] => some (0, [])
  | c :: cs =>
      if c = 'e' ∨ c = 'E' then
        let sg := parseSign cs
        let ds := spanDigits sg.2
        if ds.1 = [] then none
        else some ((if sg.1 = true then -(digitsToNat ds.1 : Int) else (digitsToNat ds.1 : Int)), ds.2)
      else some (0, c :: cs)

/-- Rational value of a decimal literal with integer digits, fraction
digits, a decimal exponent and a sign. -/
def decValue (ip fp : List Char) (ex : Int) (neg : Bool) : Rat :=
  let mant : Rat := (digitsToNat (ip ++ fp) : Rat) / ((10 : Rat) ^ fp.length)
  let scale : Rat := if 0 ≤ ex then (10 : Rat) ^ ex.toNat else ((10 : Rat) ^ (-ex).toNat)⁻¹
  (if neg then -mant else mant) * scale

/-- Body of float-string parsing after the optional sign: the inf and
nan keywords (case insensitive) or a decimal literal; anything else,
including trailing garbage, is rejected. -/
def parseAfterSign (neg : Bool) (cs : List Char) : Option PyFloat :=
  let low := cs.map Char.toLower
  if low = "inf".toList ∨ low = "infinity".toList then some (.inf neg)
  else if low = "nan".toList then some .nan
  else
    let ipr := spanDigits cs
    let fpr := parseFrac ipr.2
    if ipr.1 = [] ∧ fpr.1 = [] then none
    else
      match parseExpPart fpr.2 with
      | none => none
      | some exr =>
          if exr.2 = [] then some (.finite (decValue ipr.1 fpr.1 exr.1 neg))
          else none

/-- Model of the Python built-in float constructor on strings:
surrounding whitespace is stripped, then an optional sign followed by a
decimal literal or the inf or nan keywords; none on rejection
(Python raises ValueError there). -/
def parsePyFloat (s : String) : Option PyFloat :=
  let sg := parseSign (trimChars s.toList)
  parseAfterSign sg.1 sg.2

/-- Token standing for a path returned by tempfile.mktemp: the value of
the global name counter at generation time, plus the requested suffix.
Distinct counter values give distinct paths, which is exactly the
uniqueness that mktemp guarantees for generated file names. -/
structure TmpPath where
  id : Nat
  suffix : String
  deriving DecidableEq, Repr

/-- Mutable ambient state threaded through the run: the temporary-name
counter and the position in the clock-reading stream. -/
structure World where
  tmpCounter : Nat
  clockIdx : Nat
  deriving DecidableEq, Repr

/-- Model of tempfile.mktemp: a fresh path for the given suffix, and the
world with the name counter advanced. -/
def mktemp (sfx : String) (w : World) : TmpPath × World :=
  (⟨w.tmpCounter, sfx⟩, { w with tmpCounter := w.tmpCounter + 1 })

/-- Command line of one invocation of the learn binary, as built by fit:
the -w flag value, the -c cost value, then the training-data path and
the output model path (the value is what the format string receives;
its rendering to command-line text is not modeled). -/
structure LearnCall where
  wFlag : Nat
  cost : Rat
  dataFile : TmpPath
  modelFile : TmpPath
  deriving DecidableEq, Repr

/-- Command line of one invocation of the classify binary: the data
path, the model path, and the prediction-output path. -/
structure ClassifyCall where
  dataFile : TmpPath
  modelFile : TmpPath
  outFile : TmpPath
  deriving DecidableEq, Repr

/-- One line of the svmlight exchange format: a label and the explicit
(1-based) feature index and value pairs. -/
structure SvmLine where
  label : Rat
  feats : List (Nat × Rat)
  deriving DecidableEq, Repr

/-- Behaviour of everything outside the program: the clock-reading
stream of time.clock, the combined captured output text of the learn
binary, and the numeric table that np.loadtxt reads from the file the
classify binary wrote (an error models a missing or unreadable file). -/
structure Extern where
  clockVal : Nat → Rat
  learnOut : LearnCall → String
  classifyTable : ClassifyCall → Except PyErr (List (List Rat))

/-- Model of time.clock: the next reading of the stream, and the world
with the stream position advanced. -/
def readClock (ext : Extern) (w : World) : Rat × World :=
  (ext.clockVal w.clockIdx, { w with clockIdx := w.clockIdx + 1 })

/-- Lines written by sklearn.datasets.dump_svmlight_file with
zero_based set to False: one line per row, the paired label, and only
the nonzero features at 1-based indices. -/
def svmlightLines (X : List (List Rat)) (y : List Rat) : List SvmLine :=
  List.zipWith
    (fun row lab =>
      ⟨lab, (row.enum.filterMap fun jv => if jv.2 = 0 then none else some (jv.1 + 1, jv.2))⟩)
    X y

/-- Model of sklearn.datasets.dump_svmlight_file (zero_based False): it
validates that X and y have the same number of rows, raising ValueError
otherwise, and on success produces the svmlight lines. -/
def dump_svmlight_file (X : List (List Rat)) (y : List Rat) :
    Except PyErr (List SvmLine) :=
  if X.length = y.length then .ok (svmlightLines X y) else .error .valueError

/-- Runtime extraction of fit from the captured output lines, exactly as
the source does it: take the fourth line from the end (IndexError when
there are fewer than four lines), split it on the colon, take field 1
(IndexError when absent), and convert it with float (ValueError when
not numeric). -/
def parseRuntimeLines (lines : List String) : Except PyErr PyFloat :=
  if h : 4 ≤ lines.length then
    let line := lines.get ⟨lines.length - 4, by omega⟩
    let parts := pySplit line ':'
    if h2 : 1 < parts.length then
      match parsePyFloat (parts.get ⟨1, h2⟩) with
      | some v => .ok v
      | none => .error .valueError
    else .error .indexError
  else .error .indexError

/-- Runtime field of a captured learn-tool output, position and shape as
the source expects them: text after the first colon of the fourth line
from the end, none when that line or that field is absent. -/
def runtimeField (out : String) : Option String :=
  let lines := pySplit out '\n'
  if h : 4 ≤ lines.length then
    (pySplit (lines.get ⟨lines.length - 4, by omega⟩) ':').get? 1
  else none

/-- Malformed learn-tool output: the expected runtime field is absent,
or present but not numeric. -/
def malformedRuntime (out : String) : Bool :=
  match runtimeField out with
  | none => true
  | some f => (parsePyFloat f).isNone

/-- State of a MultiSVM object: the configured C, and the attributes
that fit creates (absent, hence none, until assigned). -/
structure MultiSVM where
  C : Rat
  model_file : Option TmpPath
  output_ : Option (List String)
  runtime_ : Option PyFloat
  deriving DecidableEq, Repr

/-- Constructor of MultiSVM: only the C attribute is set. -/
def MultiSVM.init (C : Rat) : MultiSVM :=
  ⟨C, none, none, none⟩

/-- Outcome of one method call: the raised exception if any, the value
(meaningless on an error), the object state after the call for fit, the
world after the call, and the traces of spawned external processes and
of exchange files written. -/
structure PyResult (α : Type) where
  err : Option PyErr
  val : α
  world : World
  spawnedLearn : List LearnCall := []
  spawnedClassify : List ClassifyCall := []
  written : List (TmpPath × List SvmLine) := []
  deriving Repr

/-- MultiSVM.fit: generate a model path and a training-data path with
mktemp, dump (X, y + 1) in svmlight format, run the learn binary with
flag -w 3, cost C * 100 * len(X), the data path and the model path,
split its captured output into lines, and parse the runtime from the
fourth line from the end.  The returned val is the object state after
the call, including the partial mutations present when an exception is
raised midway. -/
def MultiSVM.fit (self : MultiSVM) (ext : Extern) (w : World)
    (X : List (List Rat)) (y : List Rat) : PyResult MultiSVM :=
  let p1 := mktemp ".svm" w
  let self1 : MultiSVM := { self with model_file := some p1.1 }
  let p2 := mktemp ".svm_dat" p1.2
  match dump_svmlight_file X (y.map (fun v => v + 1)) with
  | .error e => { err := some e, val := self1, world := p2.2 }
  | .ok content =>
      let cost : Rat := self1.C * 100 * (X.length : Rat)
      let call : LearnCall := ⟨3, cost, p2.1, p1.1⟩
      let lines := pySplit (ext.learnOut call) '\n'
      let self2 : MultiSVM := { self1 with output_ := some lines }
      match parseRuntimeLines lines with
      | .error e =>
          { err := some e, val := self2, world := p2.2,
            spawnedLearn := [call], written := [(p2.1, content)] }
      | .ok r =>
          { err := none, val := { self2 with runtime_ := some r }, world := p2.2,
            spawnedLearn := [call], written := [(p2.1, content)] }

/-- MultiSVM._predict: default the label column to all ones, dump
(X, y) to a fresh exchange file, generate a fresh prediction path, read
the model-path attribute (AttributeError when fit never set it), run
the classify binary, and load the prediction file as a numeric table. -/
def MultiSVM.predictRaw (self : MultiSVM) (ext : Extern) (w : World)
    (X : List (List Rat)) (y : Option (List Rat)) : PyResult (List (List Rat)) :=
  let yv := match y with
    | none => List.replicate X.length (1 : Rat)
    | some v => v
  let p1 := mktemp ".svm_dat" w
  match dump_svmlight_file X yv with
  | .error e => { err := some e, val := [], world := p1.2 }
  | .ok content =>
      let p2 := mktemp ".out" p1.2
      match self.model_file with
      | none =>
          { err := some .attributeError, val := [], world := p2.2,
            written := [(p1.1, content)] }
      | some mf =>
          let call : ClassifyCall := ⟨p1.1, mf, p2.1⟩
          match ext.classifyTable call with
          | .error e =>
              { err := some e, val := [], world := p2.2,
                spawnedClassify := [call], written := [(p1.1, content)] }
          | .ok t =>
              { err := none, val := t, world := p2.2,
                spawnedClassify := [call], written := [(p1.1, content)] }

/-- Column 0 of a two-dimensional numeric table, as the numpy indexing
t[:, 0]: fails when some row has no column 0. -/
def col0 (t : List (List Rat)) : Except PyErr (List Rat) :=
  if t.all (fun r => !r.isEmpty) then .ok (t.map (fun r => r.headD 0))
  else .error .indexError

/-- MultiSVM.predict: column 0 of the raw prediction table, shifted back
by one. -/
def MultiSVM.predict (self : MultiSVM) (ext : Extern) (w : World)
    (X : List (List Rat)) : PyResult (List Rat) :=
  let r := self.predictRaw ext w X none
  match r.err with
  | some e =>
      { err := some e, val := [], world := r.world,
        spawnedClassify := r.spawnedClassify, written := r.written }
  | none =>
      match col0 r.val with
      | .error e =>
          { err := some e, val := [], world := r.world,
            spawnedClassify := r.spawnedClassify, written := r.written }
      | .ok c =>
          { err := none, val := c.map (fun v => v - 1), world := r.world,
            spawnedClassify := r.spawnedClassify, written := r.written }

/-- Fraction of positions where two label vectors agree, the value
accuracy_score returns. -/
def accuracyVal (yTrue yPred : List Rat) : Rat :=
  (((yTrue.zip yPred).countP (fun p => decide (p.1 = p.2))) : Rat) / (yTrue.length : Rat)

/-- Model of sklearn.metrics.accuracy_score on label vectors: the
fraction of positions where the two vectors agree; ValueError on a
length mismatch. -/
def accuracy_score (yTrue yPred : List Rat) : Except PyErr Rat :=
  if yTrue.length = yPred.length then .ok (accuracyVal yTrue yPred)
  else .error .valueError

/-- MultiSVM.score: accuracy of predict against the given labels. -/
def MultiSVM.score (self : MultiSVM) (ext : Extern) (w : World)
    (X : List (List Rat)) (y : List Rat) : PyResult Rat :=
  let r := self.predict ext w X
  match r.err with
  | some e =>
      { err := some e, val := 0, world := r.world,
        spawnedClassify := r.spawnedClassify, written := r.written }
  | none =>
      match accuracy_score y r.val with
      | .error e =>
          { err := some e, val := 0, world := r.world,
            spawnedClassify := r.spawnedClassify, written := r.written }
      | .ok a =>
          { err := none, val := a, world := r.world,
            spawnedClassify := r.spawnedClassify, written := r.written }

/-- MultiSVM.decision_function: columns 1 and up of the raw prediction
table. -/
def MultiSVM.decision_function (self : MultiSVM) (ext : Extern) (w : World)
    (X : List (List Rat)) : PyResult (List (List Rat)) :=
  let r := self.predictRaw ext w X none
  match r.err with
  | some e =>
      { err := some e, val := [], world := r.world,
        spawnedClassify := r.spawnedClassify, written := r.written }
  | none =>
      { err := none, val := r.val.map List.tail, world := r.world,
        spawnedClassify := r.spawnedClassify, written := r.written }

/-- Interface that eval_on_data duck-types against: assignment to the C
attribute, the fit and predict methods (each threading the object state
and the world, and possibly raising), and a read of the runtime
attribute (none models hasattr false). -/
structure AdapterOps (σ : Type) where
  setC : σ → Rat → σ
  fit : σ → List (List Rat) → List Rat → World → Option PyErr × σ × World
  predict : σ → List (List Rat) → World → Option PyErr × List Rat × σ × World
  runtimeAttr : σ → Option PyFloat

/-- Body of one iteration of the eval_on_data loop: set the C attribute
to the sweep value, record a start clock reading, fit, choose the time
as the runtime attribute when present and otherwise as the elapsed
clock time, predict on the training data and take the accuracy; an
exception at any point propagates (the loop output is lost but the
object and world mutations survive). -/
def sweepStep {σ : Type} (A : AdapterOps σ) (ext : Extern)
    (X : List (List Rat)) (y : List Rat) (s : σ) (w : World) (C : Rat) :
    Except PyErr (Rat × PyFloat) × σ × World :=
  let s1 := A.setC s C
  let st := readClock ext w
  match A.fit s1 X y st.2 with
  | (some e, s2, w2) => (.error e, s2, w2)
  | (none, s2, w2) =>
      let tw : PyFloat × World :=
        match A.runtimeAttr s2 with
        | some r => (r, w2)
        | none =>
            let nw := readClock ext w2
            (.finite (nw.1 - st.1), nw.2)
      match A.predict s2 X tw.2 with
      | (some e, _, s3, w4) => (.error e, s3, w4)
      | (none, yp, s3, w4) =>
          match accuracy_score y yp with
          | .error e => (.error e, s3, w4)
          | .ok acc => (.ok (acc, tw.1), s3, w4)

/-- Result of eval_on_data: the pair of accuracy and time sequences on
success (an exception loses both, the local lists being discarded when
the loop aborts), together with the adapter object and the world after
the call. -/
structure EvalResult (σ : Type) where
  res : Except PyErr (List Rat × List PyFloat)
  svm : σ
  world : World

/-- Model of eval_on_data: iterate sweepStep over the sweep values in
order, collecting the accuracy and time of each point; the first
exception aborts the whole sweep with no partial output. -/
def evalOnData {σ : Type} (A : AdapterOps σ) (ext : Extern)
    (X : List (List Rat)) (y : List Rat) :
    σ → World → List Rat → EvalResult σ
  | s, w, [] => ⟨.ok ([], []), s, w⟩
  | s, w, C :: Cs =>
      match sweepStep A ext X y s w C with
      | (.error e, s2, w2) => ⟨.error e, s2, w2⟩
      | (.ok at1, s2, w2) =>
          match evalOnData A ext X y s2 w2 Cs with
          | ⟨.error e, s3, w3⟩ => ⟨.error e, s3, w3⟩
          | ⟨.ok rest, s3, w3⟩ => ⟨.ok (at1.1 :: rest.1, at1.2 :: rest.2), s3, w3⟩

/-- The MultiSVM object packaged behind the duck-typed interface that
eval_on_data uses, with the external world fixed: fit and predict are
the methods above, and the runtime attribute is the one fit assigns. -/
def multiSVMOps (ext : Extern) : AdapterOps MultiSVM where
  setC s c := { s with C := c }
  fit s X y w :=
    let r := MultiSVM.fit s ext w X y
    (r.err, r.val, r.world)
  predict s X w :=
    let r := MultiSVM.predict s ext w X
    (r.err, r.val, s, r.world)
  runtimeAttr s := s.runtime_

/-- Chart description produced by plot_curves: the two named curves in
drawing order, the categorical tick positions and labels, and the
title. -/
structure Chart where
  curves : List (String × List Rat)
  xtickPositions : List Nat
  xtickLabels : List Rat
  title : String
  deriving DecidableEq, Repr

/-- Outcome of plot_curves: the rendered chart, and the name of the
persisted file when one is written. -/
structure PlotOutcome where
  chart : Chart
  saved : Option String
  deriving DecidableEq, Repr

/-- Model of plot_curves: draw the two curves against categorical ticks
labelled with the sweep values, and save the figure under the supplied
name plus the fixed .pdf extension exactly when the name is a non-empty
string (Python truthiness of the filename argument). -/
def plot_curves (curve_svmstruct curve_pystruct : List Rat) (Cs : List Rat)
    (title filename : String) : PlotOutcome :=
  { chart :=
      { curves := [("SVM-struct", curve_svmstruct), ("PyStruct", curve_pystruct)],
        xtickPositions := List.range Cs.length,
        xtickLabels := Cs,
        title := title },
    saved := if filename = "" then none else some (filename ++ ".pdf") }

/-- Learn-tool invocation that fit makes, expressed from the state and
world at the start of the call: flag 3, cost C * 100 * rows, the second
fresh path as training data, the first fresh path as model output. -/
def fitLearnCall (s : MultiSVM) (w : World) (X : List (List Rat)) : LearnCall :=
  ⟨3, s.C * 100 * (X.length : Rat), ⟨w.tmpCounter + 1, ".svm_dat"⟩, ⟨w.tmpCounter, ".svm"⟩⟩

/-- Unfolding of fit when the data shapes match: the serializer
succeeds, the learn tool is invoked once, and the outcome is decided by
the runtime parse of its captured output. -/
theorem MultiSVM.fit_eq_of_len (s : MultiSVM) (ext : Extern) (w : World)
    (X : List (List Rat)) (y : List Rat) (h : X.length = y.length) :
    MultiSVM.fit s ext w X y =
      (match parseRuntimeLines (pySplit (ext.learnOut (fitLearnCall s w X)) '\n') with
       | .error e =>
           { err := some e,
             val := ⟨s.C, some ⟨w.tmpCounter, ".svm"⟩,
                     some (pySplit (ext.learnOut (fitLearnCall s w X)) '\n'), s.runtime_⟩,
             world := ⟨w.tmpCounter + 2, w.clockIdx⟩,
             spawnedLearn := [fitLearnCall s w X],
             written := [(⟨w.tmpCounter + 1, ".svm_dat"⟩,
                          svmlightLines X (y.map (fun v => v + 1)))] }
       | .ok r =>
           { err := none,
             val := ⟨s.C, some ⟨w.tmpCounter, ".svm"⟩,
                     some (pySplit (ext.learnOut (fitLearnCall s w X)) '\n'), some r⟩,
             world := ⟨w.tmpCounter + 2, w.clockIdx⟩,
             spawnedLearn := [fitLearnCall s w X],
             written := [(⟨w.tmpCounter + 1, ".svm_dat"⟩,
                          svmlightLines X (y.map (fun v => v + 1)))] }) := by
  have hlen : X.length = (y.map (fun v => v + 1)).length := by simpa using h
  simp only [MultiSVM.fit, mktemp, dump_svmlight_file, fitLearnCall]
  rw [if_pos hlen]

/-- The world after any fit call: the temporary-name counter advanced by
the two mktemp calls, the clock stream untouched. -/
theorem MultiSVM.fit_world (s : MultiSVM) (ext : Extern) (w : World)
    (X : List (List Rat)) (y : List Rat) :
    (MultiSVM.fit s ext w X y).world = ⟨w.tmpCounter + 2, w.clockIdx⟩ := by
  simp only [MultiSVM.fit, mktemp]
  split
  · rfl
  · split <;> rfl

/-- After any fit call, even one that raised midway, the model-path
attribute holds the first fresh path of the call. -/
theorem MultiSVM.fit_model_file (s : MultiSVM) (ext : Extern) (w : World)
    (X : List (List Rat)) (y : List Rat) :
    (MultiSVM.fit s ext w X y).val.model_file = some ⟨w.tmpCounter, ".svm"⟩ := by
  simp only [MultiSVM.fit, mktemp]
  split
  · rfl
  · split <;> rfl

/-- Fit never touches the configured C attribute. -/
theorem MultiSVM.fit_C (s : MultiSVM) (ext : Extern) (w : World)
    (X : List (List Rat)) (y : List Rat) :
    (MultiSVM.fit s ext w X y).val.C = s.C := by
  simp only [MultiSVM.fit, mktemp]
  split
  · rfl
  · split <;> rfl

/-- With matching shapes, fit spawns exactly its one learn call. -/
theorem MultiSVM.fit_spawnedLearn (s : MultiSVM) (ext : Extern) (w : World)
    (X : List (List Rat)) (y : List Rat) (h : X.length = y.length) :
    (MultiSVM.fit s ext w X y).spawnedLearn = [fitLearnCall s w X] := by
  rw [MultiSVM.fit_eq_of_len s ext w X y h]
  cases parseRuntimeLines (pySplit (ext.learnOut (fitLearnCall s w X)) '\n') <;> rfl

/-- The classify step of predict propagates its process trace through
every branch of the surrounding error handling. -/
theorem MultiSVM.predict_spawned_raw (s : MultiSVM) (ext : Extern) (w : World)
    (X : List (List Rat)) :
    (MultiSVM.predict s ext w X).spawnedClassify =
      (MultiSVM.predictRaw s ext w X none).spawnedClassify := by
  simp only [MultiSVM.predict]
  split
  · rfl
  · split <;> rfl

/-- Once the model-path attribute is set, the raw predict step always
invokes the classify binary exactly once, on the data path freshly
generated by this call, the stored model path, and the prediction path
freshly generated by this call. -/
theorem MultiSVM.predictRaw_spawnedClassify (s : MultiSVM) (ext : Extern) (w : World)
    (X : List (List Rat)) (mf : TmpPath) (hmf : s.model_file = some mf) :
    (MultiSVM.predictRaw s ext w X none).spawnedClassify =
      [⟨⟨w.tmpCounter, ".svm_dat"⟩, mf, ⟨w.tmpCounter + 1, ".out"⟩⟩] := by
  simp only [MultiSVM.predictRaw, mktemp, dump_svmlight_file, List.length_replicate]
  rw [if_pos trivial, hmf]
  dsimp only
  split <;> rfl

/-- Oracle used for concrete runs in witnesses: the clock always reads
zero, the learn tool prints nothing, the classify output is missing. -/
def extTriv : Extern :=
  ⟨fun _ => 0, fun _ => "", fun _ => .error .ioError⟩

/-- Oracle of a well-behaved environment: the learn tool prints a
parseable runtime banner, and the classify tool answers a fixed
two-row, two-column table. -/
def extGood : Extern :=
  ⟨fun _ => 0, fun _ => "x: 2.5\na\nb\nc", fun _ => .ok [[1, 0], [2, 0]]⟩

/-- C5: for matching shapes, fit invokes the external learn tool exactly
once, with regularization-weighting flag 3, cost equal to the
configured C times 100 times the number of rows of X, the freshly
generated training-data path, and the freshly generated model path. -/
theorem C5_fit_invokes_learn_once (s : MultiSVM) (ext : Extern) (w : World)
    (X : List (List Rat)) (y : List Rat) (h : X.length = y.length) :
    (MultiSVM.fit s ext w X y).spawnedLearn =
      [{ wFlag := 3, cost := s.C * 100 * (X.length : Rat),
         dataFile := (mktemp ".svm_dat" (mktemp ".svm" w).2).1,
         modelFile := (mktemp ".svm" w).1 }] := by
  rw [MultiSVM.fit_spawnedLearn s ext w X y h]
  rfl

/-- Witness for C5 at a one-sample dataset. -/
theorem C5_witness :
    (MultiSVM.fit (MultiSVM.init 1) extTriv ⟨0, 0⟩ [[1]] [0]).spawnedLearn =
      [{ wFlag := 3, cost := (MultiSVM.init 1).C * 100 * (([[(1 : Rat)]]).length : Rat),
         dataFile := (mktemp ".svm_dat" (mktemp ".svm" ⟨0, 0⟩).2).1,
         modelFile := (mktemp ".svm" ⟨0, 0⟩).1 }] :=
  C5_fit_invokes_learn_once (MultiSVM.init 1) extTriv ⟨0, 0⟩ [[1]] [0] rfl

/-- C7 counterexample: with the out-of-range label -3 (no dataset has a
class index -3 in a range starting at 0) and well-formed shapes, fit
does not fail before spawning: it spawns the learn process, refuting
the part of the claim that says bad label values are caught before any
external process is started. -/
theorem C7_counterexample :
    (MultiSVM.fit (MultiSVM.init 1) extTriv ⟨0, 0⟩ [[1]] [-3]).spawnedLearn.length = 1 ∧
    ¬ (0 : Rat) ≤ -3 := by
  refine ⟨?_, by norm_num⟩
  rw [MultiSVM.fit_spawnedLearn (MultiSVM.init 1) extTriv ⟨0, 0⟩ [[1]] [-3] rfl]
  rfl

/-- C7 (amended): when the row counts of X and y differ, fit raises the
serializer's ValueError before any external process is spawned; label
values themselves are not validated. -/
theorem C7_shape_mismatch_no_spawn (s : MultiSVM) (ext : Extern) (w : World)
    (X : List (List Rat)) (y : List Rat) (h : X.length ≠ y.length) :
    (MultiSVM.fit s ext w X y).err = some PyErr.valueError ∧
    (MultiSVM.fit s ext w X y).spawnedLearn = [] := by
  have hlen : ¬ X.length = (y.map (fun v => v + 1)).length := by simpa using h
  simp only [MultiSVM.fit, mktemp, dump_svmlight_file]
  rw [if_neg hlen]
  exact ⟨rfl, rfl⟩

/-- Witness for the amended C7 at a one-row X and an empty y. -/
theorem C7_witness :
    (MultiSVM.fit (MultiSVM.init 1) extTriv ⟨0, 0⟩ [[1]] []).err = some PyErr.valueError ∧
    (MultiSVM.fit (MultiSVM.init 1) extTriv ⟨0, 0⟩ [[1]] []).spawnedLearn = [] :=
  C7_shape_mismatch_no_spawn (MultiSVM.init 1) extTriv ⟨0, 0⟩ [[1]] [] (by decide)

/-- Classify invocation that the predict path makes, expressed from the
stored model path and the world at the start of the call. -/
def predictClassifyCall (mf : TmpPath) (w : World) : ClassifyCall :=
  ⟨⟨w.tmpCounter, ".svm_dat"⟩, mf, ⟨w.tmpCounter + 1, ".out"⟩⟩

/-- C6: every fit and predict call generates fresh exchange-file names:
two successive fit calls spawn learn invocations whose training-data
and model paths are pairwise disjoint, and a subsequent predict call
invokes the classifier on a data path and an output path that are fresh
as well, distinct from each other and from both fits' training paths. -/
theorem C6_fresh_exchange_files (s : MultiSVM) (ext : Extern) (w : World)
    (X1 : List (List Rat)) (y1 : List Rat) (X2 : List (List Rat)) (y2 : List Rat)
    (X3 : List (List Rat))
    (h1 : X1.length = y1.length) (h2 : X2.length = y2.length) :
    (MultiSVM.fit s ext w X1 y1).spawnedLearn = [fitLearnCall s w X1] ∧
    (MultiSVM.fit (MultiSVM.fit s ext w X1 y1).val ext
        (MultiSVM.fit s ext w X1 y1).world X2 y2).spawnedLearn =
      [fitLearnCall (MultiSVM.fit s ext w X1 y1).val
        (MultiSVM.fit s ext w X1 y1).world X2] ∧
    (MultiSVM.predict
        (MultiSVM.fit (MultiSVM.fit s ext w X1 y1).val ext
          (MultiSVM.fit s ext w X1 y1).world X2 y2).val ext
        (MultiSVM.fit (MultiSVM.fit s ext w X1 y1).val ext
          (MultiSVM.fit s ext w X1 y1).world X2 y2).world X3).spawnedClassify =
      [predictClassifyCall ⟨(MultiSVM.fit s ext w X1 y1).world.tmpCounter, ".svm"⟩
        (MultiSVM.fit (MultiSVM.fit s ext w X1 y1).val ext
          (MultiSVM.fit s ext w X1 y1).world X2 y2).world] ∧
    (fitLearnCall s w X1).dataFile ≠
      (fitLearnCall (MultiSVM.fit s ext w X1 y1).val
        (MultiSVM.fit s ext w X1 y1).world X2).dataFile ∧
    (fitLearnCall s w X1).modelFile ≠
      (fitLearnCall (MultiSVM.fit s ext w X1 y1).val
        (MultiSVM.fit s ext w X1 y1).world X2).modelFile ∧
    (fitLearnCall s w X1).dataFile ≠
      (fitLearnCall (MultiSVM.fit s ext w X1 y1).val
        (MultiSVM.fit s ext w X1 y1).world X2).modelFile ∧
    (fitLearnCall s w X1).modelFile ≠
      (fitLearnCall (MultiSVM.fit s ext w X1 y1).val
        (MultiSVM.fit s ext w X1 y1).world X2).dataFile ∧
    (predictClassifyCall ⟨(MultiSVM.fit s ext w X1 y1).world.tmpCounter, ".svm"⟩
        (MultiSVM.fit (MultiSVM.fit s ext w X1 y1).val ext
          (MultiSVM.fit s ext w X1 y1).world X2 y2).world).dataFile ≠
      (predictClassifyCall ⟨(MultiSVM.fit s ext w X1 y1).world.tmpCounter, ".svm"⟩
        (MultiSVM.fit (MultiSVM.fit s ext w X1 y1).val ext
          (MultiSVM.fit s ext w X1 y1).world X2 y2).world).outFile ∧
    (predictClassifyCall ⟨(MultiSVM.fit s ext w X1 y1).world.tmpCounter, ".svm"⟩
        (MultiSVM.fit (MultiSVM.fit s ext w X1 y1).val ext
          (MultiSVM.fit s ext w X1 y1).world X2 y2).world).dataFile ≠
      (fitLearnCall s w X1).dataFile ∧
    (predictClassifyCall ⟨(MultiSVM.fit s ext w X1 y1).world.tmpCounter, ".svm"⟩
        (MultiSVM.fit (MultiSVM.fit s ext w X1 y1).val ext
          (MultiSVM.fit s ext w X1 y1).world X2 y2).world).dataFile ≠
      (fitLearnCall (MultiSVM.fit s ext w X1 y1).val
        (MultiSVM.fit s ext w X1 y1).world X2).dataFile := by
  have hw1 := MultiSVM.fit_world s ext w X1 y1
  have hw2 := MultiSVM.fit_world (MultiSVM.fit s ext w X1 y1).val ext
    (MultiSVM.fit s ext w X1 y1).world X2 y2
  have hmf2 := MultiSVM.fit_model_file (MultiSVM.fit s ext w X1 y1).val ext
    (MultiSVM.fit s ext w X1 y1).world X2 y2
  refine ⟨MultiSVM.fit_spawnedLearn s ext w X1 y1 h1,
          MultiSVM.fit_spawnedLearn _ ext _ X2 y2 h2,
          ?_, ?_, ?_, ?_, ?_, ?_, ?_, ?_⟩
  · rw [MultiSVM.predict_spawned_raw,
        MultiSVM.predictRaw_spawnedClassify _ ext _ X3 _ hmf2]
    rw [hw1]
    rfl
  all_goals
    simp only [hw1] at hw2 ⊢
    simp only [hw2, fitLearnCall, predictClassifyCall]
    intro hEq
    have hid := congrArg TmpPath.id hEq
    simp only at hid
    omega

/-- A malformed captured output makes the runtime parse fail with the
indexing error (line or field absent) or the conversion error (field
not numeric). -/
theorem parseRuntime_error_of_malformed (out : String)
    (h : malformedRuntime out = true) :
    parseRuntimeLines (pySplit out '\n') = .error .indexError ∨
    parseRuntimeLines (pySplit out '\n') = .error .valueError := by
  simp only [malformedRuntime, runtimeField] at h
  simp only [parseRuntimeLines]
  by_cases h4 : 4 ≤ (pySplit out '\n').length
  · rw [dif_pos h4] at h ⊢
    by_cases h2 : 1 <
        (pySplit ((pySplit out '\n').get
          ⟨(pySplit out '\n').length - 4, by omega⟩) ':').length
    · rw [List.get?_eq_get h2] at h
      rw [dif_pos h2]
      simp only [Option.isNone] at h
      simp only [List.get_eq_getElem] at h ⊢
      split at h
      · exact absurd h (by simp)
      · rename_i heq
        rw [heq]
        exact Or.inr rfl
    · rw [List.get?_eq_none.mpr (by omega)] at h
      rw [dif_neg h2]
      exact Or.inl rfl
  · rw [dif_neg h4]
    exact Or.inl rfl

/-- With matching shapes and a malformed captured output, fit raises the
parse exception and leaves the runtime attribute exactly as it was. -/
theorem MultiSVM.fit_err_of_malformed (s : MultiSVM) (ext : Extern) (w : World)
    (X : List (List Rat)) (y : List Rat) (hlen : X.length = y.length)
    (hmal : malformedRuntime (ext.learnOut (fitLearnCall s w X)) = true) :
    ((MultiSVM.fit s ext w X y).err = some PyErr.indexError ∨
     (MultiSVM.fit s ext w X y).err = some PyErr.valueError) ∧
    (MultiSVM.fit s ext w X y).val.runtime_ = s.runtime_ := by
  rw [MultiSVM.fit_eq_of_len s ext w X y hlen]
  rcases parseRuntime_error_of_malformed _ hmal with hE | hE <;> rw [hE]
  · exact ⟨Or.inl rfl, rfl⟩
  · exact ⟨Or.inr rfl, rfl⟩

/-- C1: when the learn tool's captured output is malformed at the
expected runtime position (field absent or non-numeric), fit raises the
corresponding parse exception (IndexError or ValueError) and leaves the
runtime attribute exactly as it was, recording no default; and a sweep
over the MultiSVM adapter in such an environment returns no result at
all, so no accuracy and time sequences are produced from malformed
learn-tool output. -/
theorem C1_malformed_output_raises :
    (∀ (s : MultiSVM) (ext : Extern) (w : World) (X : List (List Rat)) (y : List Rat),
      X.length = y.length →
      malformedRuntime (ext.learnOut (fitLearnCall s w X)) = true →
      ((MultiSVM.fit s ext w X y).err = some PyErr.indexError ∨
       (MultiSVM.fit s ext w X y).err = some PyErr.valueError) ∧
      (MultiSVM.fit s ext w X y).val.runtime_ = s.runtime_) ∧
    (∀ (ext : Extern) (X : List (List Rat)) (y : List Rat) (s : MultiSVM) (w : World)
       (Cs : List Rat),
      Cs ≠ [] → X.length = y.length →
      (∀ c : LearnCall, malformedRuntime (ext.learnOut c) = true) →
      (evalOnData (multiSVMOps ext) ext X y s w Cs).res.isOk = false) := by
  refine ⟨fun s ext w X y hlen hmal => MultiSVM.fit_err_of_malformed s ext w X y hlen hmal,
          fun ext X y s w Cs hCs hlen hmal => ?_⟩
  cases Cs with
  | nil => exact absurd rfl hCs
  | cons C rest =>
      have hfit := MultiSVM.fit_err_of_malformed { s with C := C } ext
        (readClock ext w).2 X y hlen (hmal _)
      rcases hfit.1 with hE | hE <;>
        simp [evalOnData, sweepStep, multiSVMOps, hE, Except.isOk, Except.toBool]

/-- Witness for C1 with the oracle whose learn output is empty. -/
theorem C1_witness :
    (((MultiSVM.fit (MultiSVM.init 1) extTriv ⟨0, 0⟩ [[1]] [0]).err = some PyErr.indexError ∨
      (MultiSVM.fit (MultiSVM.init 1) extTriv ⟨0, 0⟩ [[1]] [0]).err = some PyErr.valueError) ∧
     (MultiSVM.fit (MultiSVM.init 1) extTriv ⟨0, 0⟩ [[1]] [0]).val.runtime_ =
       (MultiSVM.init 1).runtime_) ∧
    (evalOnData (multiSVMOps extTriv) extTriv [[1]] [0] (MultiSVM.init 1) ⟨0, 0⟩
      [1]).res.isOk = false :=
  ⟨C1_malformed_output_raises.1 (MultiSVM.init 1) extTriv ⟨0, 0⟩ [[1]] [0] rfl (by decide),
   C1_malformed_output_raises.2 extTriv [[1]] [0] (MultiSVM.init 1) ⟨0, 0⟩ [1]
     (by simp) rfl (fun _ => (by decide : malformedRuntime "" = true))⟩

/-- Labels of the svmlight lines are exactly the label vector passed to
the serializer, when the shapes match. -/
theorem svmlightLines_label (X : List (List Rat)) (y : List Rat)
    (h : X.length = y.length) :
    (svmlightLines X y).map SvmLine.label = y := by
  induction X generalizing y with
  | nil =>
      cases y with
      | nil => rfl
      | cons lab y => simp at h
  | cons row X ih =>
      cases y with
      | nil => simp at h
      | cons lab y =>
          have hy := ih y (by simpa using h)
          simpa [svmlightLines] using hy

/-- A +1 shift followed by a -1 shift is the identity on a label
vector. -/
theorem map_shift_round_trip (y : List Rat) :
    (y.map (fun v => v + 1)).map (fun v => v - 1) = y := by
  induction y with
  | nil => rfl
  | cons a y ih => simp [ih]

/-- Unfolding of the predict value path: with a stored model path, a
classify table answered by the environment, and no empty row, predict
returns column 0 of the table shifted down by one. -/
theorem MultiSVM.predict_val (s : MultiSVM) (ext : Extern) (w : World)
    (X : List (List Rat)) (mf : TmpPath) (t : List (List Rat))
    (hmf : s.model_file = some mf)
    (hct : ext.classifyTable (predictClassifyCall mf w) = .ok t)
    (hne : ∀ r ∈ t, r ≠ []) :
    (MultiSVM.predict s ext w X).val = t.map (fun r => r.headD 0 - 1) := by
  simp only [predictClassifyCall] at hct
  have hall : t.all (fun r => !r.isEmpty) = true := by
    rw [List.all_eq_true]
    intro r hr
    simpa using hne r hr
  have hc : col0 t = .ok (t.map (fun r => r.headD 0)) := by
    simp [col0, hall]
  simp only [MultiSVM.predict, MultiSVM.predictRaw, mktemp, dump_svmlight_file,
    List.length_replicate]
  rw [if_pos trivial, hmf]
  dsimp only
  rw [hct]
  dsimp only
  rw [hc]
  simp [List.map_map, Function.comp]

/-- C2: fit writes the 1-based labels y + 1 into the exchange file,
predict returns column 0 of the classifier's output table minus 1, and
therefore when the classifier's column 0 equals the labels written, the
composed shift is the identity on the caller's raw 0-based labels. -/
theorem C2_label_shift_identity :
    (∀ (s : MultiSVM) (ext : Extern) (w : World) (X : List (List Rat)) (y : List Rat),
      X.length = y.length →
      (MultiSVM.fit s ext w X y).written =
        [(⟨w.tmpCounter + 1, ".svm_dat"⟩, svmlightLines X (y.map (fun v => v + 1)))] ∧
      (svmlightLines X (y.map (fun v => v + 1))).map SvmLine.label =
        y.map (fun v => v + 1)) ∧
    (∀ (s : MultiSVM) (ext : Extern) (w : World) (X : List (List Rat))
       (mf : TmpPath) (t : List (List Rat)),
      s.model_file = some mf →
      ext.classifyTable (predictClassifyCall mf w) = .ok t →
      (∀ r ∈ t, r ≠ []) →
      (MultiSVM.predict s ext w X).val = t.map (fun r => r.headD 0 - 1)) ∧
    (∀ (s : MultiSVM) (ext : Extern) (w : World) (X : List (List Rat))
       (mf : TmpPath) (t : List (List Rat)) (y : List Rat),
      s.model_file = some mf →
      ext.classifyTable (predictClassifyCall mf w) = .ok t →
      (∀ r ∈ t, r ≠ []) →
      t.map (fun r => r.headD 0) = y.map (fun v => v + 1) →
      (MultiSVM.predict s ext w X).val = y) := by
  refine ⟨fun s ext w X y hlen => ⟨?_, ?_⟩,
          fun s ext w X mf t hmf hct hne => MultiSVM.predict_val s ext w X mf t hmf hct hne,
          fun s ext w X mf t y hmf hct hne hcol => ?_⟩
  · rw [MultiSVM.fit_eq_of_len s ext w X y hlen]
    cases parseRuntimeLines (pySplit (ext.learnOut (fitLearnCall s w X)) '\n') <;> rfl
  · exact svmlightLines_label X (y.map (fun v => v + 1)) (by simpa using hlen)
  · rw [MultiSVM.predict_val s ext w X mf t hmf hct hne]
    have : t.map (fun r => r.headD 0 - 1) = (t.map (fun r => r.headD 0)).map (fun v => v - 1) := by
      simp [List.map_map, Function.comp]
    rw [this, hcol]
    exact map_shift_round_trip y

/-- Oracle whose classifier echoes the constant label 1 on two rows. -/
def extEcho : Extern :=
  ⟨fun _ => 0, fun _ => "", fun _ => .ok [[1, 5], [1, 7]]⟩

/-- Witness for C2: the written exchange lines at an empty dataset, and
the round trip through an echoing classifier on two rows of label 0. -/
theorem C2_witness :
    (MultiSVM.fit (MultiSVM.init 1) extTriv ⟨0, 0⟩ [] []).written =
      [(⟨1, ".svm_dat"⟩, svmlightLines [] (([] : List Rat).map (fun v => v + 1)))] ∧
    (MultiSVM.predict ⟨1, some ⟨7, ".svm"⟩, none, none⟩ extEcho ⟨0, 0⟩ [[1]]).val =
      [0, 0] :=
  ⟨(C2_label_shift_identity.1 (MultiSVM.init 1) extTriv ⟨0, 0⟩ [] [] rfl).1,
   C2_label_shift_identity.2.2 ⟨1, some ⟨7, ".svm"⟩, none, none⟩ extEcho ⟨0, 0⟩ [[1]]
     ⟨7, ".svm"⟩ [[1, 5], [1, 7]] [0, 0] rfl rfl (by decide) (by norm_num)⟩

/-- Without a stored model path the raw predict step raises
AttributeError when it builds the classify command. -/
theorem MultiSVM.predictRaw_err_no_model (s : MultiSVM) (ext : Extern) (w : World)
    (X : List (List Rat)) (hmf : s.model_file = none) :
    (MultiSVM.predictRaw s ext w X none).err = some PyErr.attributeError := by
  simp only [MultiSVM.predictRaw, mktemp, dump_svmlight_file, List.length_replicate]
  rw [if_pos trivial, hmf]

/-- C9: on a freshly constructed adapter, before any fit call has
created the model-path attribute, predict, score and decision_function
all raise AttributeError instead of returning any prediction. -/
theorem C9_predict_before_fit_fails (C : Rat) (ext : Extern) (w : World)
    (X : List (List Rat)) (y : List Rat) :
    (MultiSVM.predict (MultiSVM.init C) ext w X).err = some PyErr.attributeError ∧
    (MultiSVM.score (MultiSVM.init C) ext w X y).err = some PyErr.attributeError ∧
    (MultiSVM.decision_function (MultiSVM.init C) ext w X).err =
      some PyErr.attributeError := by
  have hraw := MultiSVM.predictRaw_err_no_model (MultiSVM.init C) ext w X rfl
  have hpred : (MultiSVM.predict (MultiSVM.init C) ext w X).err =
      some PyErr.attributeError := by
    simp only [MultiSVM.predict]
    rw [hraw]
  refine ⟨hpred, ?_, ?_⟩
  · simp only [MultiSVM.score]
    rw [hpred]
  · simp only [MultiSVM.decision_function]
    rw [hraw]

/-- C8: plot_curves persists the chart exactly when the filename is a
non-empty string, under the caller-supplied name with the fixed .pdf
extension, and the rendered chart carries the two input series and the
sweep values unchanged. -/
theorem C8_plot_saves_iff_filename (a b Cs : List Rat) (ti fn : String) :
    ((plot_curves a b Cs ti fn).saved = some (fn ++ ".pdf") ↔ fn ≠ "") ∧
    (plot_curves a b Cs ti fn).chart.curves = [("SVM-struct", a), ("PyStruct", b)] ∧
    (plot_curves a b Cs ti fn).chart.xtickLabels = Cs ∧
    (plot_curves a b Cs ti fn).chart.title = ti := by
  refine ⟨⟨fun h hfn => ?_, fun h => ?_⟩, rfl, rfl, rfl⟩
  · rw [hfn] at h
    simp [plot_curves] at h
  · simp [plot_curves, h]

/-- Witness for C8 at a non-empty filename. -/
theorem C8_witness :
    (plot_curves [0] [1] [2] "t" "fig").saved = some ("fig" ++ ".pdf") :=
  (C8_plot_saves_iff_filename [0] [1] [2] "t" "fig").1.mpr (by decide)

/-- Lockstep correspondence between a sweep and its output sequences:
each accuracy and time pair is produced by the sweep step run at the
matching sweep value, threading the adapter object and the world in
list order with no reordering and no skipping. -/
inductive SweepChain {σ : Type} (A : AdapterOps σ) (ext : Extern)
    (X : List (List Rat)) (y : List Rat) :
    σ × World → List Rat → List Rat → List PyFloat → σ × World → Prop where
  | nil (sw : σ × World) : SweepChain A ext X y sw [] [] [] sw
  | cons (s : σ) (w : World) (C : Rat) (Cs : List Rat) (acc : Rat) (t : PyFloat)
      (accs : List Rat) (times : List PyFloat) (s1 : σ) (w1 : World)
      (last : σ × World) :
      sweepStep A ext X y s w C = (.ok (acc, t), s1, w1) →
      SweepChain A ext X y (s1, w1) Cs accs times last →
      SweepChain A ext X y (s, w) (C :: Cs) (acc :: accs) (t :: times) last

/-- C3: a successful sweep returns accuracy and time sequences of the
same length as the sweep list, produced in lockstep order by the
per-point step; and a step failure at any sweep point aborts the whole
sweep with the exception and no partial output. -/
theorem C3_sweep_lockstep :
    (∀ {σ : Type} (A : AdapterOps σ) (ext : Extern) (X : List (List Rat))
       (y : List Rat) (s : σ) (w : World) (Cs : List Rat) (accs : List Rat)
       (times : List PyFloat) (s1 : σ) (w1 : World),
      evalOnData A ext X y s w Cs = ⟨.ok (accs, times), s1, w1⟩ →
      accs.length = Cs.length ∧ times.length = Cs.length ∧
      SweepChain A ext X y (s, w) Cs accs times (s1, w1)) ∧
    (∀ {σ : Type} (A : AdapterOps σ) (ext : Extern) (X : List (List Rat))
       (y : List Rat) (s : σ) (w : World) (pre : List Rat) (C : Rat)
       (post : List Rat) (accs : List Rat) (times : List PyFloat) (s1 : σ)
       (w1 : World) (e : PyErr) (s2 : σ) (w2 : World),
      evalOnData A ext X y s w pre = ⟨.ok (accs, times), s1, w1⟩ →
      sweepStep A ext X y s1 w1 C = (.error e, s2, w2) →
      evalOnData A ext X y s w (pre ++ C :: post) = ⟨.error e, s2, w2⟩) := by
  constructor
  · intro σ A ext X y s w Cs
    induction Cs generalizing s w with
    | nil =>
        intro accs times s1 w1 h
        simp only [evalOnData, EvalResult.mk.injEq, Except.ok.injEq,
          Prod.mk.injEq] at h
        obtain ⟨⟨ha, ht⟩, hs, hw⟩ := h
        subst ha; subst ht; subst hs; subst hw
        exact ⟨rfl, rfl, SweepChain.nil (s, w)⟩
    | cons C rest ih =>
        intro accs times s1 w1 h
        simp only [evalOnData] at h
        split at h
        · exact absurd h (by simp)
        · rename_i at1 s2 w2 hstep
          split at h
          · exact absurd h (by simp)
          · rename_i rest1 s3 w3 hrec
            simp only [EvalResult.mk.injEq, Except.ok.injEq, Prod.mk.injEq] at h
            obtain ⟨⟨ha, ht⟩, hs, hw⟩ := h
            subst ha; subst ht; subst hs; subst hw
            obtain ⟨hl1, hl2, hchain⟩ := ih s2 w2 rest1.1 rest1.2 s3 w3 hrec
            refine ⟨by simpa using hl1, by simpa using hl2, ?_⟩
            exact SweepChain.cons s w C rest at1.1 at1.2 rest1.1 rest1.2 s2 w2
              (s3, w3) (by simpa using hstep) hchain
  · intro σ A ext X y s w pre
    induction pre generalizing s w with
    | nil =>
        intro C post accs times s1 w1 e s2 w2 h1 h2
        simp only [evalOnData, EvalResult.mk.injEq, Except.ok.injEq,
          Prod.mk.injEq] at h1
        obtain ⟨⟨ha, ht⟩, hs, hw⟩ := h1
        subst hs; subst hw
        simp only [List.nil_append, evalOnData, h2]
    | cons P pre ih =>
        intro C post accs times s1 w1 e s2 w2 h1 h2
        simp only [evalOnData] at h1
        split at h1
        · exact absurd h1 (by simp)
        · rename_i at1 sA wA hstep
          split at h1
          · exact absurd h1 (by simp)
          · rename_i rest1 s3 w3 hrec
            simp only [EvalResult.mk.injEq, Except.ok.injEq, Prod.mk.injEq] at h1
            obtain ⟨⟨ha, ht⟩, hs, hw⟩ := h1
            subst hs; subst hw
            have htail := ih sA wA C post rest1.1 rest1.2 s3 w3 e s2 w2
              (by simpa using hrec) h2
            simp only [List.cons_append, evalOnData, hstep, List.append_eq, htail]

/-- Adapter for concrete harness runs: the object state is just the C
value, fit and predict always succeed and leave the world alone,
predictions are empty, and a runtime attribute is present. -/
def ratAdapter : AdapterOps Rat where
  setC _ c := c
  fit s _ _ w := (none, s, w)
  predict s _ w := (none, [], s, w)
  runtimeAttr _ := some (.finite 0)

/-- Adapter whose fit always raises, for concrete abort runs. -/
def errAdapter : AdapterOps Rat where
  setC _ c := c
  fit s _ _ w := (some .ioError, s, w)
  predict s _ w := (none, [], s, w)
  runtimeAttr _ := none

/-- Witness for C3: a one-point sweep in lockstep, and the abort of a
one-point sweep whose step raises. -/
theorem C3_witness :
    ([accuracyVal [] []].length = [(1 : Rat)].length ∧
     [PyFloat.finite 0].length = [(1 : Rat)].length ∧
     SweepChain ratAdapter extTriv [] [] ((5 : Rat), (⟨0, 0⟩ : World)) [1]
       [accuracyVal [] []] [PyFloat.finite 0] ((1 : Rat), (⟨0, 1⟩ : World))) ∧
    evalOnData errAdapter extTriv [] [] (5 : Rat) ⟨0, 0⟩ ([] ++ (1 : Rat) :: []) =
      ⟨.error PyErr.ioError, 1, ⟨0, 1⟩⟩ :=
  ⟨C3_sweep_lockstep.1 ratAdapter extTriv [] [] 5 ⟨0, 0⟩ [1] [accuracyVal [] []]
     [PyFloat.finite 0] 1 ⟨0, 1⟩ rfl,
   C3_sweep_lockstep.2 errAdapter extTriv [] [] 5 ⟨0, 0⟩ [] 1 [] [] [] 5 ⟨0, 0⟩
     PyErr.ioError 1 ⟨0, 1⟩ rfl rfl⟩

/-- C4: at a successful sweep point, fit raised nothing and the recorded
time is the adapter's runtime attribute when the adapter exposes one
after fit, and otherwise the elapsed clock time between the recorded
start and the completion of fit; the presence of the attribute alone
selects the source. -/
theorem C4_time_source (σ : Type) (A : AdapterOps σ) (ext : Extern)
    (X : List (List Rat)) (y : List Rat) (s : σ) (w : World) (C acc : Rat)
    (t : PyFloat) (s1 : σ) (w1 : World)
    (h : sweepStep A ext X y s w C = (.ok (acc, t), s1, w1)) :
    (A.fit (A.setC s C) X y (readClock ext w).2).1 = none ∧
    t = (match A.runtimeAttr (A.fit (A.setC s C) X y (readClock ext w).2).2.1 with
         | some r => r
         | none =>
             PyFloat.finite
               (ext.clockVal (A.fit (A.setC s C) X y (readClock ext w).2).2.2.clockIdx -
                (readClock ext w).1)) := by
  unfold sweepStep at h
  dsimp only at h
  split at h
  · exact absurd h (by simp)
  · rename_i s2 w2 hfit
    refine ⟨by rw [hfit], ?_⟩
    rw [hfit]
    dsimp only
    split at h
    · exact absurd h (by simp)
    · rename_i yp s3 w4 hpred
      split at h
      · exact absurd h (by simp)
      · rename_i acc2 hacc
        simp only [Prod.mk.injEq, Except.ok.injEq] at h
        obtain ⟨⟨hacc2, htt⟩, hs, hw⟩ := h
        subst htt
        cases hr : A.runtimeAttr s2 <;> simp [hr, readClock]

/-- Witness for C4 at a one-point step of the concrete adapter. -/
theorem C4_witness :
    (ratAdapter.fit (ratAdapter.setC 5 1) [] [] (readClock extTriv ⟨0, 0⟩).2).1 = none ∧
    PyFloat.finite 0 =
      (match ratAdapter.runtimeAttr
          (ratAdapter.fit (ratAdapter.setC 5 1) [] [] (readClock extTriv ⟨0, 0⟩).2).2.1 with
       | some r => r
       | none =>
           PyFloat.finite
             (extTriv.clockVal
               (ratAdapter.fit (ratAdapter.setC 5 1) [] []
                 (readClock extTriv ⟨0, 0⟩).2).2.2.clockIdx -
              (readClock extTriv ⟨0, 0⟩).1)) :=
  C4_time_source Rat ratAdapter extTriv [] [] 5 ⟨0, 0⟩ 1 (accuracyVal [] [])
    (PyFloat.finite 0) 1 ⟨0, 1⟩ rfl

/-- A successful sweep step leaves the C attribute at the sweep value it
assigned, for any C reader that the setter writes and that fit and
predict leave unchanged. -/
theorem sweepStep_getC (σ : Type) (A : AdapterOps σ) (getC : σ → Rat)
    (hset : ∀ (s : σ) (c : Rat), getC (A.setC s c) = c)
    (hfit : ∀ (s : σ) (X : List (List Rat)) (y : List Rat) (w : World),
      getC (A.fit s X y w).2.1 = getC s)
    (hpred : ∀ (s : σ) (X : List (List Rat)) (w : World),
      getC (A.predict s X w).2.2.1 = getC s)
    (ext : Extern) (X : List (List Rat)) (y : List Rat) (s : σ) (w : World)
    (C : Rat) (a : Rat × PyFloat) (s1 : σ) (w1 : World)
    (h : sweepStep A ext X y s w C = (.ok a, s1, w1)) :
    getC s1 = C := by
  unfold sweepStep at h
  dsimp only at h
  split at h
  · exact absurd h (by simp)
  · rename_i s2 w2 hfitEq
    split at h
    · exact absurd h (by simp)
    · rename_i yp s3 w4 hpredEq
      split at h
      · exact absurd h (by simp)
      · rename_i acc2 hacc
        simp only [Prod.mk.injEq, Except.ok.injEq] at h
        obtain ⟨h1, hs, hw⟩ := h
        subst hs
        have e3 : getC s3 = getC s2 := by
          have hp := congrArg (fun q => getC q.2.2.1) hpredEq
          dsimp only at hp
          rw [hpred] at hp
          exact hp.symm
        have e2 : getC s2 = getC (A.setC s C) := by
          have hf := congrArg (fun q => getC q.2.1) hfitEq
          dsimp only at hf
          rw [hfit] at hf
          exact hf.symm
        rw [e3, e2, hset]

/-- C10: eval_on_data assigns the adapter's C attribute at every sweep
point, so after a successful sweep the attribute holds the last sweep
value, the previously configured C being overwritten in sweep order;
stated over any adapter together with a C reader that the setter writes
and that fit and predict leave unchanged. -/
theorem C10_adapter_C_overwritten (σ : Type) (A : AdapterOps σ) (getC : σ → Rat)
    (hset : ∀ (s : σ) (c : Rat), getC (A.setC s c) = c)
    (hfit : ∀ (s : σ) (X : List (List Rat)) (y : List Rat) (w : World),
      getC (A.fit s X y w).2.1 = getC s)
    (hpred : ∀ (s : σ) (X : List (List Rat)) (w : World),
      getC (A.predict s X w).2.2.1 = getC s)
    (ext : Extern) (X : List (List Rat)) (y : List Rat) (s : σ) (w : World)
    (Cs : List Rat) (c : Rat) (p : List Rat × List PyFloat)
    (hlast : Cs.getLast? = some c)
    (h : (evalOnData A ext X y s w Cs).res = .ok p) :
    getC (evalOnData A ext X y s w Cs).svm = c := by
  induction Cs generalizing s w c p with
  | nil => simp at hlast
  | cons C rest ih =>
      rcases hstep : sweepStep A ext X y s w C with ⟨res0, sA, wA⟩
      cases res0 with
      | error e =>
          simp only [evalOnData, hstep] at h
          exact absurd h (by simp)
      | ok at1 =>
          rcases hrec : evalOnData A ext X y sA wA rest with ⟨res1, sB, wB⟩
          cases res1 with
          | error e =>
              simp only [evalOnData, hstep, hrec] at h
              exact absurd h (by simp)
          | ok p1 =>
              simp only [evalOnData, hstep, hrec] at h ⊢
              cases rest with
              | nil =>
                  simp only [evalOnData, EvalResult.mk.injEq, Except.ok.injEq,
                    Prod.mk.injEq] at hrec
                  obtain ⟨hp, hsB, hwB⟩ := hrec
                  subst hsB
                  simp only [List.getLast?_singleton, Option.some.injEq] at hlast
                  subst hlast
                  exact sweepStep_getC σ A getC hset hfit hpred ext X y s w C at1
                    sA wA hstep
              | cons R rest2 =>
                  have hres : (evalOnData A ext X y sA wA (R :: rest2)).res = .ok p1 := by
                    rw [hrec]
                  have hl : (R :: rest2).getLast? = some c := by
                    simpa [List.getLast?_cons_cons] using hlast
                  have := ih sA wA c p1 hl hres
                  rw [hrec] at this
                  exact this

/-- Witness for C10 at a two-point sweep of the concrete adapter. -/
theorem C10_witness :
    (evalOnData ratAdapter extTriv [] [] (5 : Rat) ⟨0, 0⟩ [3, 7]).svm = 7 :=
  C10_adapter_C_overwritten Rat ratAdapter (fun q => q)
    (fun _ _ => rfl) (fun _ _ _ _ => rfl) (fun _ _ _ => rfl)
    extTriv [] [] 5 ⟨0, 0⟩ [3, 7] 7
    ([accuracyVal [] [], accuracyVal [] []], [PyFloat.finite 0, PyFloat.finite 0])
    rfl rfl

/-- Witness for C6 at two concrete successive fit calls. -/
theorem C6_witness :
    (MultiSVM.fit (MultiSVM.init 1) extTriv ⟨0, 0⟩ [[1]] [0]).spawnedLearn =
      [fitLearnCall (MultiSVM.init 1) ⟨0, 0⟩ [[1]]] ∧
    (fitLearnCall (MultiSVM.init 1) ⟨0, 0⟩ [[1]]).dataFile ≠
      (fitLearnCall (MultiSVM.fit (MultiSVM.init 1) extTriv ⟨0, 0⟩ [[1]] [0]).val
        (MultiSVM.fit (MultiSVM.init 1) extTriv ⟨0, 0⟩ [[1]] [0]).world [[2]]).dataFile ∧
    (fitLearnCall (MultiSVM.init 1) ⟨0, 0⟩ [[1]]).modelFile ≠
      (fitLearnCall (MultiSVM.fit (MultiSVM.init 1) extTriv ⟨0, 0⟩ [[1]] [0]).val
        (MultiSVM.fit (MultiSVM.init 1) extTriv ⟨0, 0⟩ [[1]] [0]).world [[2]]).modelFile := by
  have h := C6_fresh_exchange_files (MultiSVM.init 1) extTriv ⟨0, 0⟩ [[1]] [0] [[2]] [0]
    [[3]] rfl rfl
  exact ⟨h.1, h.2.2.2.1, h.2.2.2.2.1⟩
